import Mathlib

/-!
Verification of the torch backend adaptation layer
(keras/src/backend/torch/layer.py, class TorchLayer, NEW_IMPL path).

The adapter keeps a per-layer Exposure Snapshot (the torch_params
ParameterList) in sync with the layer's keras-side variable tracker.  We
embed the layer tree as a pure datatype and each method of TorchLayer as a
pure function on it.  Native tensor handles are modelled as Nat
identifiers: two equal identifiers denote the very same native object, so
handle equality renders reference identity / sharing.  Python object
identity of a freshly constructed torch.nn.ParameterList is modelled by an
id field allocated from a fresh-id counter threaded through the
operations: a rebuild allocates a new id, returning an existing snapshot
keeps its id.
-/

/-- A keras Variable as the adapter reads it: stable path and the native
tensor handle stored in its value field (KerasVariable.value, a
torch.nn.Parameter under the torch backend). -/
structure Variable where
  path : String
  value : Nat
deriving Repr, DecidableEq

/-- A keras SeedGenerator; the adapter only reads sg.state.value, the
native handle of its state variable. -/
structure SeedGenerator where
  stateValue : Nat
deriving Repr, DecidableEq

/-- The Exposure Snapshot: the torch.nn.ParameterList stored in the
torch_params attribute.  params is its ordered list of handles; id is the
Python object identity of the ParameterList itself. -/
structure Snapshot where
  id : Nat
  params : List Nat
deriving Repr, DecidableEq

/-- Per-layer state read and written by TorchLayer: the keras tracker's
partitions (self._trainable_variables, self._non_trainable_variables,
self._seed_generators, each in insertion order), the built flag, and the
optional torch_params attribute (none models hasattr being false). -/
structure LayerData where
  trainable_variables : List Variable
  non_trainable_variables : List Variable
  seed_generators : List SeedGenerator
  built : Bool
  torch_params : Option Snapshot
deriving Repr, DecidableEq

mutual
/-- A layer: its own data plus its sublayers (self._layers, which torch
also sees as the child modules), in insertion order. -/
inductive Layer where
  | node (d : LayerData) (ls : Layers)

/-- The ordered list of sublayers of a layer. -/
inductive Layers where
  | nil
  | cons (l : Layer) (ls : Layers)
end

/-- The LayerData of a layer. -/
def Layer.data : Layer → LayerData
  | .node d _ => d

/-- The sublayers of a layer. -/
def Layer.subs : Layer → Layers
  | .node _ ls => ls

/-- TorchLayer._torch_params_tracked: hasattr(self, "torch_params"). -/
def torchParamsTracked (l : Layer) : Bool :=
  l.data.torch_params.isSome

/-- The handle list _track_torch_params builds for one layer: v.value for
v in self._trainable_variables + self._non_trainable_variables, then
sg.state.value for sg in self._seed_generators. -/
def handlesOf (d : LayerData) : List Nat :=
  (d.trainable_variables ++ d.non_trainable_variables).map Variable.value
    ++ d.seed_generators.map SeedGenerator.stateValue

mutual
/-- TorchLayer._track_torch_params (NEW_IMPL path): recurse into
self._layers first, return early if torch_params is already present,
otherwise build the ParameterList of handles and set torch_params.  The
Nat argument is the fresh-id counter for newly constructed
ParameterList objects. -/
def trackTorchParams : Layer → Nat → Layer × Nat
  | .node d ls, c =>
    let r := trackTorchParamsAll ls c
    if d.torch_params.isSome then
      (.node d r.1, r.2)
    else
      (.node { d with torch_params := some ⟨r.2, handlesOf d⟩ } r.1, r.2 + 1)

/-- The loop for layer in self._layers: layer._track_torch_params(). -/
def trackTorchParamsAll : Layers → Nat → Layers × Nat
  | .nil, c => (.nil, c)
  | .cons l ls, c =>
    let r := trackTorchParams l c
    let rs := trackTorchParamsAll ls r.2
    (.cons r.1 rs.1, rs.2)
end

/-- The AttributeError raised by del self.torch_params when the attribute
is absent. -/
def attrErrMsg : String := "AttributeError: torch_params"

mutual
/-- TorchLayer._untrack_torch_params: recurse into self._layers first,
then del self.torch_params.  Python's del raises AttributeError when the
attribute is absent (torch.nn.Module.__delattr__ falls through to
object.__delattr__), so the unguarded deletion is fallible. -/
def untrackTorchParams : Layer → Except String Layer
  | .node d ls =>
    match untrackTorchParamsAll ls with
    | .error e => .error e
    | .ok ls2 =>
      match d.torch_params with
      | some _ => .ok (.node { d with torch_params := none } ls2)
      | none => .error attrErrMsg

/-- The loop for layer in self._layers: layer._untrack_torch_params(). -/
def untrackTorchParamsAll : Layers → Except String Layers
  | .nil => .ok .nil
  | .cons l ls =>
    match untrackTorchParams l with
    | .error e => .error e
    | .ok l2 =>
      match untrackTorchParamsAll ls with
      | .error e => .error e
      | .ok ls2 => .ok (.cons l2 ls2)
end

/-- TorchLayer._post_build: return immediately when in_stateless_scope(),
otherwise self._track_torch_params().  The stateless flag is the value
in_stateless_scope() reads from global evaluation state. -/
def postBuild (stateless : Bool) (l : Layer) (c : Nat) : Layer × Nat :=
  if stateless then (l, c) else trackTorchParams l c

/-- TorchLayer._post_track_variable (NEW_IMPL path): the keras tracker has
already inserted the variable into the layer's partitions; if
torch_params is tracked, self._untrack_torch_params() then
self._track_torch_params(). -/
def postTrackVariable (l : Layer) (c : Nat) : Except String (Layer × Nat) :=
  if torchParamsTracked l then
    match untrackTorchParams l with
    | .error e => .error e
    | .ok l2 => .ok (trackTorchParams l2 c)
  else
    .ok (l, c)

/-- TorchLayer._post_untrack_variable (NEW_IMPL path): identical body to
_post_track_variable, run after the tracker removed the variable. -/
def postUntrackVariable (l : Layer) (c : Nat) : Except String (Layer × Nat) :=
  if torchParamsTracked l then
    match untrackTorchParams l with
    | .error e => .error e
    | .ok l2 => .ok (trackTorchParams l2 c)
  else
    .ok (l, c)

/-- The RuntimeError message raised by TorchLayer.named_parameters when
torch parameters are not tracked and the layer is not built. -/
def notBuiltMsg : String :=
  "Torch parameters are not tracked yet and layer is not built. Did you forget to call build()?"

/-- Entries contributed by one snapshot to torch's enumeration: the
ParameterList registered under the module name torch_params exposes its
parameters as torch_params.0, torch_params.1, ... under the caller's
name qualifier q. -/
def snapEntries (q : String) : Nat → List Nat → List (String × Nat)
  | _, [] => []
  | i, h :: hs => (q ++ "torch_params." ++ toString i, h) :: snapEntries q (i + 1) hs

/-- Entries of an optional snapshot. -/
def snapEntriesOpt (q : String) : Option Snapshot → List (String × Nat)
  | none => []
  | some s => snapEntries q 0 s.params

mutual
/-- Modelled from the spec: torch.nn.Module.named_parameters recursive
traversal (the native runtime's own traversal that the Enumerator
delegates to; external library code, described in the spec as walking the
snapshot tree, qualifying names hierarchically with the prefix
argument).  Child modules are qualified by their position. -/
def moduleEntries : Layer → String → List (String × Nat)
  | .node d ls, q => snapEntriesOpt q d.torch_params ++ moduleEntriesAll ls q 0

/-- Traversal of the child modules, qualifying each by its position. -/
def moduleEntriesAll : Layers → String → Nat → List (String × Nat)
  | .nil, _, _ => []
  | .cons l ls, q, i =>
    moduleEntries l (q ++ toString i ++ ".") ++ moduleEntriesAll ls q (i + 1)
end

/-- Modelled from the spec: the duplicate filter of
torch.nn.Module.named_parameters — a handle already yielded (by identity)
is skipped when remove_duplicate is true. -/
def dedupByHandle : List (String × Nat) → List Nat → List (String × Nat)
  | [], _ => []
  | (n, h) :: rest, seen =>
    if h ∈ seen then dedupByHandle rest seen
    else (n, h) :: dedupByHandle rest (h :: seen)

/-- Modelled from the spec: torch.nn.Module.named_parameters(q, recurse,
remove_duplicate).  With recurse false torch yields only the module's own
direct parameters, and TorchLayer keeps all handles inside the
torch_params child ParameterList, so the local-only view is empty. -/
def moduleNamedParams (l : Layer) (q : String) (recurse removeDup : Bool) :
    List (String × Nat) :=
  let raw := if recurse then moduleEntries l q else []
  if removeDup then dedupByHandle raw [] else raw

/-- TorchLayer.named_parameters: if not self._torch_params_tracked(), lazily
self._track_torch_params() when self.built, else raise RuntimeError; then
delegate to torch.nn.Module.named_parameters.  Returns the yielded pairs
together with the updated layer and counter. -/
def namedParams (l : Layer) (c : Nat) (q : String) (recurse removeDup : Bool) :
    Except String (List (String × Nat) × Layer × Nat) :=
  if torchParamsTracked l then
    .ok (moduleNamedParams l q recurse removeDup, l, c)
  else if l.data.built then
    let r := trackTorchParams l c
    .ok (moduleNamedParams r.1 q recurse removeDup, r.1, r.2)
  else
    .error notBuiltMsg

mutual
/-- Every node of the subtree has a torch_params snapshot. -/
def allTracked : Layer → Bool
  | .node d ls => d.torch_params.isSome && allTrackedAll ls

/-- allTracked for a list of sublayers. -/
def allTrackedAll : Layers → Bool
  | .nil => true
  | .cons l ls => allTracked l && allTrackedAll ls
end

mutual
/-- Subtree invariant: whenever a node has a snapshot, its whole subtree
has snapshots. -/
def snapInv : Layer → Bool
  | .node d ls => (!d.torch_params.isSome || allTrackedAll ls) && snapInvAll ls

/-- snapInv for a list of sublayers. -/
def snapInvAll : Layers → Bool
  | .nil => true
  | .cons l ls => snapInv l && snapInvAll ls
end

mutual
/-- Remove every snapshot in the subtree (the state after a successful
_untrack_torch_params). -/
def eraseSnaps : Layer → Layer
  | .node d ls => .node { d with torch_params := none } (eraseSnapsAll ls)

/-- eraseSnaps for a list of sublayers. -/
def eraseSnapsAll : Layers → Layers
  | .nil => .nil
  | .cons l ls => .cons (eraseSnaps l) (eraseSnapsAll ls)
end

mutual
/-- Normalize every snapshot object id to 0, keeping the handle lists:
two layers equal up to stripIds expose identical parameter views. -/
def stripIds : Layer → Layer
  | .node d ls =>
    .node { d with torch_params := d.torch_params.map fun s => ⟨0, s.params⟩ }
      (stripIdsAll ls)

/-- stripIds for a list of sublayers. -/
def stripIdsAll : Layers → Layers
  | .nil => .nil
  | .cons l ls => .cons (stripIds l) (stripIdsAll ls)
end

mutual
/-- All keras Variables tracked in the subtree, trainable then
non-trainable at each node, parents before children. -/
def allVars : Layer → List Variable
  | .node d ls => d.trainable_variables ++ d.non_trainable_variables ++ allVarsAll ls

/-- allVars for a list of sublayers. -/
def allVarsAll : Layers → List Variable
  | .nil => []
  | .cons l ls => allVars l ++ allVarsAll ls
end

mutual
/-- All seed generators tracked in the subtree. -/
def allSeeds : Layer → List SeedGenerator
  | .node d ls => d.seed_generators ++ allSeedsAll ls

/-- allSeeds for a list of sublayers. -/
def allSeedsAll : Layers → List SeedGenerator
  | .nil => []
  | .cons l ls => allSeeds l ++ allSeedsAll ls
end

/-- The kind of value assigned to a layer attribute, as _setattr_hook
distinguishes it by isinstance checks.  TorchModuleWrapper is itself a
keras Layer (and hence a torch.nn.Module); wrapperObj v models
TorchModuleWrapper(v). -/
inductive SetValue where
  | rawModule (id : Nat)
  | layerObj (id : Nat)
  | wrapperObj (inner : SetValue)
  | nonModule (id : Nat)
deriving Repr, DecidableEq

/-- isinstance(value, torch.nn.Module): true for raw modules, keras
layers and wrappers (layers subclass torch.nn.Module in this backend). -/
def SetValue.isTorchModule : SetValue → Bool
  | .nonModule _ => false
  | _ => true

/-- isinstance(value, Layer): true for keras layers and for
TorchModuleWrapper instances, which subclass Layer. -/
def SetValue.isLayer : SetValue → Bool
  | .layerObj _ => true
  | .wrapperObj _ => true
  | _ => false

/-- isinstance(value, TorchModuleWrapper). -/
def SetValue.isWrapperInstance : SetValue → Bool
  | .wrapperObj _ => true
  | _ => false

/-- TorchLayer._setattr_hook: if the value is a torch.nn.Module, not a
Layer, and the name is not torch_params, then — when self is not a
TorchModuleWrapper — replace it by TorchModuleWrapper(value); the hook
returns the (name, value) pair to assign. -/
def setattrHook (selfIsWrapper : Bool) (name : String) (value : SetValue) :
    String × SetValue :=
  if value.isTorchModule && !value.isLayer && !(name == "torch_params") then
    if !selfIsWrapper then (name, .wrapperObj value) else (name, value)
  else (name, value)

/-- The wrap condition exactly as the spec's claim words it (value is a
native module, not a Layer, not already the wrapping adapter type, name
not the snapshot attribute), written down to be compared with the
source's setattrHook. -/
def specWrapCond (value : SetValue) (name : String) : Prop :=
  value.isTorchModule = true ∧ value.isLayer = false ∧
    value.isWrapperInstance = false ∧ name ≠ "torch_params"

/-- Sample variables and layers used to instantiate theorems on concrete
inputs. -/
def varA : Variable := ⟨"a", 1⟩

/-- Second sample trainable variable. -/
def varB : Variable := ⟨"b", 2⟩

/-- Sample non-trainable variable. -/
def varC : Variable := ⟨"c", 3⟩

/-- Sample variable owned by a sublayer. -/
def varW : Variable := ⟨"w", 5⟩

/-- Sample seed generator. -/
def seedS : SeedGenerator := ⟨4⟩

/-- Sample layer data: trainable [a, b], non-trainable [c], seeds [s],
built, no snapshot yet. -/
def sampleData : LayerData := ⟨[varA, varB], [varC], [seedS], true, none⟩

/-- Sample sublayer owning one trainable variable. -/
def sampleChild : Layer := .node ⟨[varW], [], [], true, none⟩ .nil

/-- Sample two-level layer: sampleData at the root, one sublayer. -/
def sampleLayer : Layer := .node sampleData (.cons sampleChild .nil)

/-- sampleLayer after _track_torch_params. -/
def sampleTracked : Layer := (trackTorchParams sampleLayer 0).1

/-- A built layer with a snapshot already present. -/
def snapData : LayerData := ⟨[varA], [varC], [seedS], true, some ⟨0, [1, 3, 4]⟩⟩

/-- Leaf layer around snapData. -/
def snapLayer : Layer := .node snapData .nil

/-- An unbuilt, untracked leaf layer. -/
def sampleUnbuilt : Layer := .node ⟨[varA], [], [], false, none⟩ .nil

mutual
theorem track_counter_le (l : Layer) (c : Nat) : c ≤ (trackTorchParams l c).2 := by
  cases l with
  | node d ls =>
    have h := trackAll_counter_le ls c
    cases hopt : d.torch_params with
    | none => simp [trackTorchParams, hopt]; omega
    | some s => simp [trackTorchParams, hopt]; omega

theorem trackAll_counter_le (ls : Layers) (c : Nat) :
    c ≤ (trackTorchParamsAll ls c).2 := by
  cases ls with
  | nil => simp [trackTorchParamsAll]
  | cons l ls =>
    have h1 := track_counter_le l c
    have h2 := trackAll_counter_le ls (trackTorchParams l c).2
    simp only [trackTorchParamsAll]
    omega
end

mutual
theorem track_allTracked (l : Layer) (c : Nat) :
    allTracked (trackTorchParams l c).1 = true := by
  cases l with
  | node d ls =>
    have h := trackAll_allTracked ls c
    cases hopt : d.torch_params with
    | none => simp [trackTorchParams, hopt, allTracked, h]
    | some s => simp [trackTorchParams, hopt, allTracked, h]

theorem trackAll_allTracked (ls : Layers) (c : Nat) :
    allTrackedAll (trackTorchParamsAll ls c).1 = true := by
  cases ls with
  | nil => simp [trackTorchParamsAll, allTrackedAll]
  | cons l ls =>
    have h1 := track_allTracked l c
    have h2 := trackAll_allTracked ls (trackTorchParams l c).2
    simp [trackTorchParamsAll, allTrackedAll, h1, h2]
end

mutual
theorem track_of_allTracked (l : Layer) (c : Nat) (h : allTracked l = true) :
    trackTorchParams l c = (l, c) := by
  cases l with
  | node d ls =>
    simp only [allTracked, Bool.and_eq_true] at h
    have hls := trackAll_of_allTracked ls c h.2
    cases hopt : d.torch_params with
    | none => rw [hopt] at h; simp at h
    | some s => simp [trackTorchParams, hopt, hls]

theorem trackAll_of_allTracked (ls : Layers) (c : Nat)
    (h : allTrackedAll ls = true) : trackTorchParamsAll ls c = (ls, c) := by
  cases ls with
  | nil => simp [trackTorchParamsAll]
  | cons l ls =>
    simp only [allTrackedAll, Bool.and_eq_true] at h
    have h1 := track_of_allTracked l c h.1
    have h2 := trackAll_of_allTracked ls c h.2
    simp [trackTorchParamsAll, h1, h2]
end

mutual
theorem untrack_eq (l : Layer) :
    untrackTorchParams l =
      if allTracked l then .ok (eraseSnaps l) else .error attrErrMsg := by
  cases l with
  | node d ls =>
    have h := untrackAll_eq ls
    cases hopt : d.torch_params with
    | none =>
      by_cases hls : allTrackedAll ls = true <;>
        simp [untrackTorchParams, h, hls, allTracked, hopt]
    | some s =>
      by_cases hls : allTrackedAll ls = true <;>
        simp [untrackTorchParams, h, hls, allTracked, hopt, eraseSnaps]

theorem untrackAll_eq (ls : Layers) :
    untrackTorchParamsAll ls =
      if allTrackedAll ls then .ok (eraseSnapsAll ls) else .error attrErrMsg := by
  cases ls with
  | nil => simp [untrackTorchParamsAll, allTrackedAll, eraseSnapsAll]
  | cons l ls =>
    have h1 := untrack_eq l
    have h2 := untrackAll_eq ls
    by_cases ha : allTracked l = true <;> by_cases hb : allTrackedAll ls = true <;>
      simp [untrackTorchParamsAll, h1, h2, ha, hb, allTrackedAll, eraseSnapsAll]
end

mutual
theorem allTracked_snapInv (l : Layer) (h : allTracked l = true) :
    snapInv l = true := by
  cases l with
  | node d ls =>
    simp only [allTracked, Bool.and_eq_true] at h
    have hls := allTrackedAll_snapInvAll ls h.2
    simp [snapInv, h.1, h.2, hls]

theorem allTrackedAll_snapInvAll (ls : Layers) (h : allTrackedAll ls = true) :
    snapInvAll ls = true := by
  cases ls with
  | nil => simp [snapInvAll]
  | cons l ls =>
    simp only [allTrackedAll, Bool.and_eq_true] at h
    simp [snapInvAll, allTracked_snapInv l h.1, allTrackedAll_snapInvAll ls h.2]
end

mutual
theorem eraseSnaps_snapInv (l : Layer) : snapInv (eraseSnaps l) = true := by
  cases l with
  | node d ls => simp [eraseSnaps, snapInv, eraseSnapsAll_snapInvAll ls]

theorem eraseSnapsAll_snapInvAll (ls : Layers) :
    snapInvAll (eraseSnapsAll ls) = true := by
  cases ls with
  | nil => simp [eraseSnapsAll, snapInvAll]
  | cons l ls =>
    simp [eraseSnapsAll, snapInvAll, eraseSnaps_snapInv l, eraseSnapsAll_snapInvAll ls]
end

mutual
theorem eraseSnaps_allVars (l : Layer) : allVars (eraseSnaps l) = allVars l := by
  cases l with
  | node d ls => simp [eraseSnaps, allVars, eraseSnapsAll_allVarsAll ls]

theorem eraseSnapsAll_allVarsAll (ls : Layers) :
    allVarsAll (eraseSnapsAll ls) = allVarsAll ls := by
  cases ls with
  | nil => simp [eraseSnapsAll]
  | cons l ls =>
    simp [eraseSnapsAll, allVarsAll, eraseSnaps_allVars l, eraseSnapsAll_allVarsAll ls]
end

mutual
theorem eraseSnaps_allSeeds (l : Layer) : allSeeds (eraseSnaps l) = allSeeds l := by
  cases l with
  | node d ls => simp [eraseSnaps, allSeeds, eraseSnapsAll_allSeedsAll ls]

theorem eraseSnapsAll_allSeedsAll (ls : Layers) :
    allSeedsAll (eraseSnapsAll ls) = allSeedsAll ls := by
  cases ls with
  | nil => simp [eraseSnapsAll]
  | cons l ls =>
    simp [eraseSnapsAll, allSeedsAll, eraseSnaps_allSeeds l, eraseSnapsAll_allSeedsAll ls]
end

mutual
theorem track_stripIds (l : Layer) (c1 c2 : Nat) :
    stripIds (trackTorchParams l c1).1 = stripIds (trackTorchParams l c2).1 := by
  cases l with
  | node d ls =>
    have h := trackAll_stripIds ls c1 c2
    cases hopt : d.torch_params with
    | none => simp [trackTorchParams, hopt, stripIds, h]
    | some s => simp [trackTorchParams, hopt, stripIds, h]

theorem trackAll_stripIds (ls : Layers) (c1 c2 : Nat) :
    stripIdsAll (trackTorchParamsAll ls c1).1
      = stripIdsAll (trackTorchParamsAll ls c2).1 := by
  cases ls with
  | nil => simp [trackTorchParamsAll]
  | cons l ls =>
    have h1 := track_stripIds l c1 c2
    have h2 := trackAll_stripIds ls (trackTorchParams l c1).2 (trackTorchParams l c2).2
    simp [trackTorchParamsAll, stripIdsAll, h1, h2]
end

mutual
theorem moduleEntries_stripIds (l : Layer) (q : String) :
    moduleEntries (stripIds l) q = moduleEntries l q := by
  cases l with
  | node d ls =>
    have h := moduleEntriesAll_stripIds ls q 0
    cases hopt : d.torch_params with
    | none => simp [stripIds, moduleEntries, snapEntriesOpt, hopt, h]
    | some s => simp [stripIds, moduleEntries, snapEntriesOpt, hopt, h]

theorem moduleEntriesAll_stripIds (ls : Layers) (q : String) (i : Nat) :
    moduleEntriesAll (stripIdsAll ls) q i = moduleEntriesAll ls q i := by
  cases ls with
  | nil => simp [stripIdsAll]
  | cons l ls =>
    have h1 := moduleEntries_stripIds l (q ++ toString i ++ ".")
    have h2 := moduleEntriesAll_stripIds ls q (i + 1)
    simp [stripIdsAll, moduleEntriesAll, h1, h2]
end

theorem track_tracked (l : Layer) (c : Nat) :
    torchParamsTracked (trackTorchParams l c).1 = true := by
  cases l with
  | node d ls =>
    cases hopt : d.torch_params <;>
      simp [trackTorchParams, hopt, torchParamsTracked, Layer.data]

theorem track_root (d : LayerData) (ls : Layers) (c : Nat)
    (h : d.torch_params = none) :
    (trackTorchParams (.node d ls) c).1 =
      .node { d with torch_params := some ⟨(trackTorchParamsAll ls c).2, handlesOf d⟩ }
        (trackTorchParamsAll ls c).1 := by
  simp [trackTorchParams, h]

theorem wrapperObj_ne (v : SetValue) : SetValue.wrapperObj v ≠ v := by
  induction v with
  | wrapperObj w ih => intro h; exact ih (SetValue.wrapperObj.inj h)
  | rawModule i => intro h; exact SetValue.noConfusion h
  | layerObj i => intro h; exact SetValue.noConfusion h
  | nonModule i => intro h; exact SetValue.noConfusion h

theorem snapInv_tracked_allTracked (l : Layer) (h1 : snapInv l = true)
    (h2 : torchParamsTracked l = true) : allTracked l = true := by
  cases l with
  | node d ls =>
    simp only [torchParamsTracked, Layer.data] at h2
    simp only [snapInv, Bool.and_eq_true, Bool.or_eq_true] at h1
    simp only [allTracked, Bool.and_eq_true, h2, true_and]
    rcases h1.1 with h | h
    · rw [h2] at h; simp at h
    · exact h

theorem untrack_ok_erase (l l2 : Layer) (hu : untrackTorchParams l = .ok l2) :
    l2 = eraseSnaps l ∧ allTracked l = true := by
  rw [untrack_eq l] at hu
  by_cases hall : allTracked l = true
  · rw [if_pos hall] at hu
    exact ⟨(Except.ok.inj hu).symm, hall⟩
  · rw [if_neg hall] at hu
    exact absurd hu (by simp)

/-- Claim C1: after _track_torch_params on a built layer that has no
snapshot, the layer's torch_params handle list is exactly the trainable
variables' values, then the non-trainable variables' values, then the
seed-generator state values, each in the layer's own insertion order (the
partition lists); nothing except partition membership and within-partition
insertion order enters the result. -/
theorem c1_snapshot_order (d : LayerData) (ls : Layers) (c : Nat)
    (_hb : d.built = true) (h : d.torch_params = none) :
    ∃ s : Snapshot,
      ((trackTorchParams (.node d ls) c).1).data.torch_params = some s ∧
      s.params =
        d.trainable_variables.map Variable.value
          ++ d.non_trainable_variables.map Variable.value
          ++ d.seed_generators.map SeedGenerator.stateValue := by
  refine ⟨⟨(trackTorchParamsAll ls c).2, handlesOf d⟩, ?_, ?_⟩
  · rw [track_root d ls c h]; rfl
  · simp [handlesOf]

theorem c1_snapshot_order_witness :
    ∃ s : Snapshot,
      ((trackTorchParams (.node sampleData .nil) 0).1).data.torch_params = some s ∧
      s.params = [1, 2, 3, 4] :=
  c1_snapshot_order sampleData .nil 0 rfl rfl

/-- Claim C2: finalizing while a stateless scope is active creates no
snapshot (_post_build returns untouched state), and a subsequent
named_parameters call on the still-untracked, still-unbuilt layer raises
the not-built RuntimeError.  The built flag is managed by the framework
outside this file's source; the spec stipulates the layer is still unbuilt
from the adapter's perspective, so that is a hypothesis here. -/
theorem c2_stateless_suppression (l : Layer) (c c2 : Nat) (q : String)
    (recurse removeDup : Bool)
    (h1 : l.data.torch_params = none) (h2 : l.data.built = false) :
    postBuild true l c = (l, c) ∧
    ((postBuild true l c).1).data.torch_params = none ∧
    namedParams (postBuild true l c).1 c2 q recurse removeDup
      = .error notBuiltMsg := by
  have hp : postBuild true l c = (l, c) := by simp [postBuild]
  refine ⟨hp, ?_, ?_⟩
  · rw [hp]; exact h1
  · rw [hp]; simp [namedParams, torchParamsTracked, h1, h2]

theorem c2_stateless_suppression_witness :
    postBuild true sampleUnbuilt 0 = (sampleUnbuilt, 0) ∧
    ((postBuild true sampleUnbuilt 0).1).data.torch_params = none ∧
    namedParams (postBuild true sampleUnbuilt 0).1 0 "" true true
      = .error notBuiltMsg :=
  c2_stateless_suppression sampleUnbuilt 0 0 "" true true rfl rfl

/-- Claim C3: named_parameters errors exactly when the layer has no
snapshot and is not built; the only error it raises is the message telling
the caller to build first; and with no snapshot but built it lazily runs
_track_torch_params and returns the enumeration without error. -/
theorem c3_notbuilt_iff (l : Layer) (c : Nat) (q : String)
    (recurse removeDup : Bool) :
    (namedParams l c q recurse removeDup = .error notBuiltMsg ↔
      torchParamsTracked l = false ∧ l.data.built = false) ∧
    (∀ e, namedParams l c q recurse removeDup = .error e → e = notBuiltMsg) ∧
    (torchParamsTracked l = false → l.data.built = true →
      namedParams l c q recurse removeDup =
        .ok (moduleNamedParams (trackTorchParams l c).1 q recurse removeDup,
          (trackTorchParams l c).1, (trackTorchParams l c).2)) := by
  cases ht : torchParamsTracked l with
  | true =>
    refine ⟨by simp [namedParams, ht], fun e he => ?_, fun hf => by simp at hf⟩
    simp [namedParams, ht] at he
  | false =>
    cases hb : l.data.built with
    | true =>
      refine ⟨by simp [namedParams, ht, hb], fun e he => ?_, fun _ _ => ?_⟩
      · simp [namedParams, ht, hb] at he
      · simp [namedParams, ht, hb]
    | false =>
      refine ⟨by simp [namedParams, ht, hb], fun e he => ?_, fun _ hf => by simp [hb] at hf⟩
      simp [namedParams, ht, hb] at he
      exact he.symm

theorem c3_notbuilt_iff_witness :
    (namedParams sampleUnbuilt 0 "" true true = .error notBuiltMsg ↔
      torchParamsTracked sampleUnbuilt = false ∧
        sampleUnbuilt.data.built = false) ∧
    ("oops" = notBuiltMsg → False) ∧
    namedParams sampleLayer 0 "" true true =
      .ok (moduleNamedParams (trackTorchParams sampleLayer 0).1 "" true true,
        (trackTorchParams sampleLayer 0).1, (trackTorchParams sampleLayer 0).2) :=
  ⟨(c3_notbuilt_iff sampleUnbuilt 0 "" true true).1,
   fun h => by simp [notBuiltMsg] at h,
   (c3_notbuilt_iff sampleLayer 0 "" true true).2.2 rfl rfl⟩

/-- Claim C4, counterexample: on a layer with no snapshot,
_untrack_torch_params is not a no-op but raises (del self.torch_params on
an absent attribute is an AttributeError), so redundant invalidation is
not safe. -/
theorem c4_counterexample :
    torchParamsTracked sampleLayer = false ∧
    untrackTorchParams sampleLayer = .error attrErrMsg :=
  ⟨rfl, rfl⟩

/-- Claim C4 amended: _untrack_torch_params succeeds (removing every
snapshot in the subtree) exactly when every node of the subtree has a
snapshot; at any node without one — the layer itself or any descendant —
it raises AttributeError instead of being a no-op. -/
theorem c4_amended_strict_invalidation (l : Layer) :
    (allTracked l = true → untrackTorchParams l = .ok (eraseSnaps l)) ∧
    (allTracked l = false → untrackTorchParams l = .error attrErrMsg) := by
  constructor <;> intro h <;> simp [untrack_eq, h]

theorem c4_amended_strict_invalidation_witness :
    untrackTorchParams sampleTracked = .ok (eraseSnaps sampleTracked) :=
  (c4_amended_strict_invalidation sampleTracked).1 (by decide)

/-- Claim C5: _track_torch_params is idempotent — a second call right
after a first one returns the identical layer (every snapshot, id
included, is the very object built by the first call) and allocates no
fresh ParameterList (the counter is unchanged, i.e. no rebuild). -/
theorem c5_idempotent (l : Layer) (c : Nat) :
    trackTorchParams (trackTorchParams l c).1 (trackTorchParams l c).2
      = ((trackTorchParams l c).1, (trackTorchParams l c).2) :=
  track_of_allTracked _ _ (track_allTracked l c)

/-- Claim C6: tracking a new variable (here: appended to the trainable
partition by the keras tracker) on a layer that has a snapshot makes
_post_track_variable untrack and re-track, producing a fresh ParameterList
object (its id differs from the old snapshot's, given that the old id was
allocated below the current fresh-id counter) whose handle list places the
new variable at the end of the trainable block, before the non-trainable
block and the seed states. -/
theorem c6_rebuild_on_track (d : LayerData) (ls : Layers) (v : Variable)
    (c : Nat) (s : Snapshot)
    (hs : d.torch_params = some s)
    (hall : allTracked (Layer.node d ls) = true)
    (hid : s.id < c) :
    ∃ l2 c2 s2,
      postTrackVariable
          (Layer.node { d with trainable_variables := d.trainable_variables ++ [v] } ls) c
        = .ok (l2, c2) ∧
      l2.data.torch_params = some s2 ∧
      s2.params =
        d.trainable_variables.map Variable.value ++ [v.value]
          ++ d.non_trainable_variables.map Variable.value
          ++ d.seed_generators.map SeedGenerator.stateValue ∧
      s2.id ≠ s.id := by
  set d1 : LayerData := { d with trainable_variables := d.trainable_variables ++ [v] } with hd1
  have htr : torchParamsTracked (Layer.node d1 ls) = true := by
    simp [torchParamsTracked, Layer.data, hd1, hs]
  have hall1 : allTracked (Layer.node d1 ls) = true := by
    simp only [allTracked, Bool.and_eq_true] at hall ⊢
    exact ⟨by simp [hd1, hs], hall.2⟩
  have hu : untrackTorchParams (Layer.node d1 ls)
      = .ok (eraseSnaps (Layer.node d1 ls)) := by
    rw [untrack_eq, if_pos hall1]
  have he : eraseSnaps (Layer.node d1 ls)
      = Layer.node { d1 with torch_params := none } (eraseSnapsAll ls) := by
    simp [eraseSnaps]
  have hp : postTrackVariable (Layer.node d1 ls) c
      = .ok (trackTorchParams (eraseSnaps (Layer.node d1 ls)) c) := by
    rw [postTrackVariable, if_pos, hu]
    exact htr
  set k : Nat := (trackTorchParamsAll (eraseSnapsAll ls) c).2 with hk
  have htk : (trackTorchParams (eraseSnaps (Layer.node d1 ls)) c).1
      = Layer.node
        { { d1 with torch_params := none } with
            torch_params := some ⟨k, handlesOf { d1 with torch_params := none }⟩ }
        (trackTorchParamsAll (eraseSnapsAll ls) c).1 := by
    rw [he, track_root]
    rfl
  refine ⟨(trackTorchParams (eraseSnaps (Layer.node d1 ls)) c).1,
    (trackTorchParams (eraseSnaps (Layer.node d1 ls)) c).2,
    ⟨k, handlesOf { d1 with torch_params := none }⟩, ?_, ?_, ?_, ?_⟩
  · rw [hp]
  · rw [htk]; rfl
  · simp [handlesOf, hd1]
  · have hck : c ≤ k := trackAll_counter_le (eraseSnapsAll ls) c
    simp only []
    omega

theorem c6_rebuild_on_track_witness :
    ∃ l2 c2 s2,
      postTrackVariable
          (Layer.node
            { snapData with
                trainable_variables := snapData.trainable_variables ++ [varB] }
            .nil) 1
        = .ok (l2, c2) ∧
      l2.data.torch_params = some s2 ∧
      s2.params = [1, 2, 3, 4] ∧
      s2.id ≠ 0 :=
  c6_rebuild_on_track snapData .nil varB 1 ⟨0, [1, 3, 4]⟩ rfl (by decide) (by decide)

/-- Claim C7, counterexample: when the layer being assigned to is itself a
TorchModuleWrapper, a raw torch.nn.Module value satisfying every condition
of the claim (native module, not a Layer, not already the wrapper type,
name not torch_params) still passes through unwrapped, because the source
tests isinstance(self, TorchModuleWrapper), a condition the claim omits. -/
theorem c7_counterexample :
    specWrapCond (SetValue.rawModule 0) "attr" ∧
    setattrHook true "attr" (SetValue.rawModule 0)
      = ("attr", SetValue.rawModule 0) :=
  ⟨⟨rfl, rfl, rfl, by decide⟩, rfl⟩

/-- Claim C7 amended: _setattr_hook wraps the value in TorchModuleWrapper
if and only if the value is a torch.nn.Module, is not a Layer, the name is
not torch_params, and the layer being assigned to is not itself a
TorchModuleWrapper; in every other case the value passes through
unchanged.  (A value already of the wrapper type is never wrapped, since
the wrapper subclasses Layer.) -/
theorem c7_amended_wrap_iff (selfIsWrapper : Bool) (name : String)
    (v : SetValue) :
    (setattrHook selfIsWrapper name v = (name, .wrapperObj v) ↔
      (v.isTorchModule = true ∧ v.isLayer = false ∧ name ≠ "torch_params" ∧
        selfIsWrapper = false)) ∧
    (¬(v.isTorchModule = true ∧ v.isLayer = false ∧ name ≠ "torch_params" ∧
        selfIsWrapper = false) →
      setattrHook selfIsWrapper name v = (name, v)) := by
  have hw : SetValue.wrapperObj v ≠ v := wrapperObj_ne v
  have hw2 : v ≠ SetValue.wrapperObj v := fun h => hw h.symm
  cases selfIsWrapper <;> cases hm : v.isTorchModule <;> cases hl : v.isLayer <;>
    by_cases hn : name = "torch_params" <;>
      simp_all [setattrHook, Prod.ext_iff]

theorem c7_amended_wrap_iff_witness :
    setattrHook false "submodule" (SetValue.rawModule 7)
      = ("submodule", SetValue.wrapperObj (SetValue.rawModule 7)) :=
  (c7_amended_wrap_iff false "submodule" (SetValue.rawModule 7)).1.mpr
    ⟨rfl, rfl, by decide, rfl⟩

/-- Claim C8: for a fixed layer tree, two independent runs of
_track_torch_params followed by named_parameters yield the identical
ordered (name, handle) list, whatever fresh ParameterList identities each
run allocates: enumeration is a deterministic function of partition
insertion orders and tree structure, with no hashing or arbitrary
iteration order anywhere in the model. -/
theorem c8_deterministic_enumeration (l : Layer) (c1 c2 k1 k2 : Nat)
    (q : String) (recurse removeDup : Bool) :
    ∃ out,
      namedParams (trackTorchParams l c1).1 k1 q recurse removeDup
        = .ok (out, (trackTorchParams l c1).1, k1) ∧
      namedParams (trackTorchParams l c2).1 k2 q recurse removeDup
        = .ok (out, (trackTorchParams l c2).1, k2) := by
  have ht1 := track_tracked l c1
  have ht2 := track_tracked l c2
  have he : moduleEntries (trackTorchParams l c1).1 q
      = moduleEntries (trackTorchParams l c2).1 q := by
    rw [← moduleEntries_stripIds (trackTorchParams l c1).1 q,
      ← moduleEntries_stripIds (trackTorchParams l c2).1 q,
      track_stripIds l c1 c2]
  have hm : moduleNamedParams (trackTorchParams l c1).1 q recurse removeDup
      = moduleNamedParams (trackTorchParams l c2).1 q recurse removeDup := by
    simp [moduleNamedParams, he]
  refine ⟨moduleNamedParams (trackTorchParams l c1).1 q recurse removeDup, ?_, ?_⟩
  · simp [namedParams, ht1]
  · rw [hm]; simp [namedParams, ht2]

/-- Claim C9: the snapshot built by _track_torch_params holds, at each
index, the very handle stored in the corresponding Variable's value (or
seed-generator state) — no copy is made, so mutation through either path
is seen by both; and a successful _untrack_torch_params leaves every
tracked Variable and seed generator (hence every handle) of the tree
intact. -/
theorem c9_handle_sharing (d : LayerData) (ls : Layers) (c : Nat)
    (l l2 : Layer) (h : d.torch_params = none) :
    (∃ s, ((trackTorchParams (Layer.node d ls) c).1).data.torch_params = some s ∧
      ∀ i : Nat, s.params[i]? = (handlesOf d)[i]?) ∧
    (untrackTorchParams l = .ok l2 →
      allVars l2 = allVars l ∧ allSeeds l2 = allSeeds l) := by
  constructor
  · refine ⟨⟨(trackTorchParamsAll ls c).2, handlesOf d⟩, ?_, fun i => rfl⟩
    rw [track_root d ls c h]; rfl
  · intro hu
    obtain ⟨he, -⟩ := untrack_ok_erase l l2 hu
    rw [he]
    exact ⟨eraseSnaps_allVars l, eraseSnaps_allSeeds l⟩

theorem c9_handle_sharing_witness :
    (∃ s, ((trackTorchParams (Layer.node sampleData .nil) 0).1).data.torch_params = some s ∧
      ∀ i : Nat, s.params[i]? = (handlesOf sampleData)[i]?) ∧
    (allVars (eraseSnaps sampleTracked) = allVars sampleTracked ∧
      allSeeds (eraseSnaps sampleTracked) = allSeeds sampleTracked) :=
  ⟨(c9_handle_sharing sampleData .nil 0 sampleTracked (eraseSnaps sampleTracked) rfl).1,
   (c9_handle_sharing sampleData .nil 0 sampleTracked (eraseSnaps sampleTracked) rfl).2 rfl⟩

/-- Claim C10: the subtree invariant — a node with a torch_params snapshot
has snapshots on its whole subtree — holds after each public operation
starting from any state satisfying it (the keras tracker's own partition
edits never touch snapshot presence), and it is exactly what makes the
unguarded child-first deletion in _untrack_torch_params succeed whenever
the root has a snapshot. -/
theorem c10_subtree_invariant :
    (∀ (st : Bool) (l : Layer) (c : Nat), snapInv l = true →
      snapInv (postBuild st l c).1 = true) ∧
    (∀ (l : Layer) (c : Nat), snapInv (trackTorchParams l c).1 = true) ∧
    (∀ (l l2 : Layer), untrackTorchParams l = .ok l2 → snapInv l2 = true) ∧
    (∀ (l : Layer) (c : Nat) (l2 : Layer) (c2 : Nat), snapInv l = true →
      postTrackVariable l c = .ok (l2, c2) → snapInv l2 = true) ∧
    (∀ (l : Layer) (c : Nat) (l2 : Layer) (c2 : Nat), snapInv l = true →
      postUntrackVariable l c = .ok (l2, c2) → snapInv l2 = true) ∧
    (∀ l : Layer, snapInv l = true → torchParamsTracked l = true →
      untrackTorchParams l = .ok (eraseSnaps l)) := by
  have trackInv : ∀ (l : Layer) (c : Nat), snapInv (trackTorchParams l c).1 = true :=
    fun l c => allTracked_snapInv _ (track_allTracked l c)
  have untrackInv : ∀ (l l2 : Layer), untrackTorchParams l = .ok l2 →
      snapInv l2 = true := by
    intro l l2 hu
    obtain ⟨he, -⟩ := untrack_ok_erase l l2 hu
    rw [he]
    exact eraseSnaps_snapInv l
  have lastc : ∀ l : Layer, snapInv l = true → torchParamsTracked l = true →
      untrackTorchParams l = .ok (eraseSnaps l) := by
    intro l h1 h2
    rw [untrack_eq l, if_pos (snapInv_tracked_allTracked l h1 h2)]
  have hpt : ∀ (l : Layer) (c : Nat) (l2 : Layer) (c2 : Nat), snapInv l = true →
      postTrackVariable l c = .ok (l2, c2) → snapInv l2 = true := by
    intro l c l2 c2 h1 hp
    by_cases h2 : torchParamsTracked l = true
    · rw [postTrackVariable, if_pos h2, lastc l h1 h2] at hp
      have hl2 : l2 = (trackTorchParams (eraseSnaps l) c).1 :=
        (congrArg Prod.fst (Except.ok.inj hp)).symm
      rw [hl2]
      exact trackInv _ _
    · rw [postTrackVariable, if_neg h2] at hp
      have hl2 : l2 = l := (congrArg Prod.fst (Except.ok.inj hp)).symm
      rw [hl2]
      exact h1
  have hpu : ∀ (l : Layer) (c : Nat) (l2 : Layer) (c2 : Nat), snapInv l = true →
      postUntrackVariable l c = .ok (l2, c2) → snapInv l2 = true := by
    intro l c l2 c2 h1 hp
    by_cases h2 : torchParamsTracked l = true
    · rw [postUntrackVariable, if_pos h2, lastc l h1 h2] at hp
      have hl2 : l2 = (trackTorchParams (eraseSnaps l) c).1 :=
        (congrArg Prod.fst (Except.ok.inj hp)).symm
      rw [hl2]
      exact trackInv _ _
    · rw [postUntrackVariable, if_neg h2] at hp
      have hl2 : l2 = l := (congrArg Prod.fst (Except.ok.inj hp)).symm
      rw [hl2]
      exact h1
  refine ⟨?_, trackInv, untrackInv, hpt, hpu, lastc⟩
  intro st l c h1
  cases st with
  | true => simpa [postBuild] using h1
  | false => simpa [postBuild] using trackInv l c

theorem c10_subtree_invariant_witness :
    snapInv (postBuild false sampleLayer 0).1 = true ∧
    untrackTorchParams snapLayer = .ok (eraseSnaps snapLayer) :=
  ⟨c10_subtree_invariant.1 false sampleLayer 0 (by decide),
   c10_subtree_invariant.2.2.2.2.2 snapLayer (by decide) (by decide)⟩
